import Mathlib

/-!
Verification of the code-judging core of the DeveloperHub backend.

This file gives a shallow embedding of the execution-and-verdict pipeline:

* `Problems`   — `backend/app/api/problems.py`: `MultiLangExecutor` and the
  orchestration / verdict logic of `submit_solution` (the same loop and verdict
  code appears verbatim in `submit_module_solution`).
* `Practice`   — `backend/app/api/practice.py`: `CodeExecutor.execute_python`,
  `evaluate_verdict`, and the test loop of `submit_code`.
* `Compete`    — `backend/app/api/compete.py`: the contest penalty/points update
  of `submit_contest_solution`.
* `CodeApi`    — `backend/app/api/code.py`: language validation, the Judge0 poll
  loop `get_submission_result`, and the `submit_challenge` orchestration.
* `Judge0Svc`  — `backend/app/services/judge0.py`: `get_language_id` and
  `_poll_submission`.

External process execution (`subprocess.run`) is modelled by an oracle
`os : Nat -> ProcOutcome` giving the outcome of the k-th spawned child process;
every strategy threads a spawn counter `k`, so the number of child processes a
code path spawns is visible in the model.  The oracle covers normal completion
(return code, stdout, stderr, wall time) and `subprocess.TimeoutExpired`; the
environment failure `FileNotFoundError` (missing interpreter/compiler binary,
caught only in the C++/JavaScript strategies) is outside the oracle, as no claim
concerns a missing toolchain.  Remote (Judge0) HTTP traffic is likewise modelled
by response oracles.
-/

namespace PyStr

/-- Python `str.lower()` (ASCII case folding, which is all the denylists use). -/
def lower (s : String) : String := ⟨s.data.map Char.toLower⟩

/-- Characters stripped by Python `str.strip()` with no argument. -/
def isSpace (c : Char) : Bool := c.isWhitespace

/-- Strip from a character list: drop whitespace at both ends. -/
def stripChars (l : List Char) : List Char :=
  ((l.dropWhile isSpace).reverse.dropWhile isSpace).reverse

/-- Python `str.strip()`. -/
def strip (s : String) : String := ⟨stripChars s.data⟩

/-- Substring test on character lists, `pat` occurring inside `s`. -/
def subList (pat s : List Char) : Bool :=
  match s with
  | [] => pat.isEmpty
  | _ :: rest => pat.isPrefixOf s || subList pat rest

/-- Python `pat in s` substring membership. -/
def strContains (s pat : String) : Bool := subList pat.data s.data

/-- Python slicing `s[:n]`. -/
def strTake (s : String) (n : Nat) : String := ⟨s.data.take n⟩

/-- Python `a or b` for strings: `b` when `a` is falsy (empty). -/
def strOr (a b : String) : String := if a = "" then b else a

/-- Truthiness of an optional string (Python `x and ...` guard): `None` and the
empty string are falsy. -/
def truthy (o : Option String) : Bool :=
  match o with
  | none => false
  | some e => !(e = "")

/-- Python `tr.error and pat in tr.error` used by the verdict checks. -/
def optHasSub (o : Option String) (pat : String) : Bool :=
  match o with
  | none => false
  | some e => !(e = "") && strContains e pat

end PyStr

/-- Outcome of one `subprocess.run` invocation, as seen by the caller:
either the process completed (return code, captured stdout/stderr, elapsed
wall-clock milliseconds) or the call raised `subprocess.TimeoutExpired`. -/
inductive ProcOutcome where
  | completed (returncode : Int) (stdout stderr : String) (elapsedMs : Nat)
  | timedOut
deriving Repr, DecidableEq

namespace Problems

open PyStr

/-- Result dict returned by every `MultiLangExecutor._execute_*` method:
keys `output`, `error`, `execution_time_ms`, `status`. -/
structure ExecResult where
  output : String
  error : Option String
  executionTimeMs : Nat
  status : String
deriving Repr, DecidableEq

/-- `MultiLangExecutor.TIME_LIMIT = 5` seconds. -/
def TIME_LIMIT : Nat := 5

/-- Denylist in `MultiLangExecutor._execute_python`. -/
def forbidden : List String :=
  ["import os", "import sys", "import subprocess", "__import__", "eval(", "exec(", "open("]

/-- `MultiLangExecutor._execute_python`: reject code whose lowercasing contains a
denylisted substring (first match reported, no process spawned); otherwise run
`python` on the code with stdin piped.  `os` is the process oracle and `k` the
next spawn index; the returned `Nat` is the spawn index after the call. -/
def execute_python (code _stdin : String) (os : Nat → ProcOutcome) (k : Nat) :
    ExecResult × Nat :=
  match forbidden.find? (fun f => strContains (lower code) f) with
  | some f =>
      ({ output := "", error := some ("Forbidden: " ++ f),
         executionTimeMs := 0, status := "error" }, k)
  | none =>
      match os k with
      | .completed rc out err t =>
          if rc ≠ 0 then
            ({ output := "", error := some (strTake err 1000),
               executionTimeMs := t, status := "error" }, k + 1)
          else
            ({ output := strip out, error := none,
               executionTimeMs := t, status := "success" }, k + 1)
      | .timedOut =>
          ({ output := "", error := some "Time Limit Exceeded",
             executionTimeMs := TIME_LIMIT * 1000, status := "timeout" }, k + 1)

/-- `MultiLangExecutor._execute_cpp`: compile with `g++` (30 s timeout), then on
compiler success run the binary.  The source text written to disk is the MinGW
`ssize_t` shim plus the user code; the oracle abstracts both process runs
(`os k` is the compiler, `os (k+1)` the binary).  No denylist is consulted. -/
def execute_cpp (_code _stdin : String) (os : Nat → ProcOutcome) (k : Nat) :
    ExecResult × Nat :=
  match os k with
  | .timedOut =>
      ({ output := "", error := some "Time Limit Exceeded",
         executionTimeMs := TIME_LIMIT * 1000, status := "timeout" }, k + 1)
  | .completed crc _ cerr _ =>
      if crc ≠ 0 then
        ({ output := "", error := some ("Compilation Error:\n" ++ strTake cerr 1000),
           executionTimeMs := 0, status := "compile_error" }, k + 1)
      else
        match os (k + 1) with
        | .completed rc out err t =>
            if rc ≠ 0 then
              ({ output := "", error := some (strOr (strTake err 1000) "Runtime Error"),
                 executionTimeMs := t, status := "error" }, k + 2)
            else
              ({ output := strip out, error := none,
                 executionTimeMs := t, status := "success" }, k + 2)
        | .timedOut =>
            ({ output := "", error := some "Time Limit Exceeded",
               executionTimeMs := TIME_LIMIT * 1000, status := "timeout" }, k + 2)

/-- `MultiLangExecutor._execute_javascript`: wrap the source in the stdin-reading
shim and run `node` on it.  No denylist is consulted. -/
def execute_javascript (_code _stdin : String) (os : Nat → ProcOutcome) (k : Nat) :
    ExecResult × Nat :=
  match os k with
  | .completed rc out err t =>
      if rc ≠ 0 then
        ({ output := "", error := some (strTake err 1000),
           executionTimeMs := t, status := "error" }, k + 1)
      else
        ({ output := strip out, error := none,
           executionTimeMs := t, status := "success" }, k + 1)
  | .timedOut =>
      ({ output := "", error := some "Time Limit Exceeded",
         executionTimeMs := TIME_LIMIT * 1000, status := "timeout" }, k + 1)

/-- `MultiLangExecutor.execute`: three-way dispatch on the language tag; an
unknown tag yields an error result dict without spawning anything. -/
def execute (code language stdin : String) (os : Nat → ProcOutcome) (k : Nat) :
    ExecResult × Nat :=
  if language = "python" then execute_python code stdin os k
  else if language = "cpp" then execute_cpp code stdin os k
  else if language = "javascript" then execute_javascript code stdin os k
  else
    ({ output := "", error := some ("Unsupported language: " ++ language),
       executionTimeMs := 0, status := "error" }, k)

/-- A problem test case as stored in the problem bank: keys `input`, `output`. -/
structure TC where
  input : String
  output : String
deriving Repr, DecidableEq, Inhabited

/-- One `TestResult` record built by `submit_solution`. -/
structure TestResult where
  testNumber : Nat
  passed : Bool
  inputData : String
  expectedOutput : String
  actualOutput : Option String
  executionTimeMs : Nat
  error : Option String
deriving Repr, DecidableEq

/-- Records appended for the untested remainder after an early stop
(`for j in range(i + 1, len(test_cases))`): `passed=False`, raw (unstripped)
expected output, no actual output, zero time, error `"Skipped due to previous
failure"`.  `n` is the 1-based test number of the first skipped case. -/
def skipEntries : List TC → Nat → List TestResult
  | [], _ => []
  | tc :: rest, n =>
      { testNumber := n, passed := false, inputData := tc.input,
        expectedOutput := tc.output, actualOutput := none,
        executionTimeMs := 0, error := some "Skipped due to previous failure" }
        :: skipEntries rest (n + 1)

/-- The `for i, tc in enumerate(test_cases)` loop of `submit_solution`:
execute each case in order, compare stripped outputs, accumulate results and
total time, and break at a failing case whose 0-based index is at least 2,
recording the remainder as skipped.  Returns
(testResults, totalTime, allPassed, next spawn index). -/
def runLoop (code language : String) (os : Nat → ProcOutcome) :
    List TC → Nat → Nat → List TestResult × Nat × Bool × Nat
  | [], _, k => ([], 0, true, k)
  | tc :: rest, i, k =>
      let res := (execute code language tc.input os k).1
      let k1 := (execute code language tc.input os k).2
      let expected := strip tc.output
      let actual := strip res.output
      let passed : Bool := res.status == "success" && actual == expected
      let entry : TestResult :=
        { testNumber := i + 1, passed := passed, inputData := tc.input,
          expectedOutput := expected,
          actualOutput := if res.status == "success" then some actual else none,
          executionTimeMs := res.executionTimeMs, error := res.error }
      if !passed && decide (2 ≤ i) then
        (entry :: skipEntries rest (i + 2), res.executionTimeMs, false, k1)
      else
        let r2 := runLoop code language os rest (i + 1) k1
        (entry :: r2.1, res.executionTimeMs + r2.2.1, passed && r2.2.2.1, r2.2.2.2)

/-- The verdict block of `submit_solution` (and, verbatim, of
`submit_module_solution`): AC when `all_passed`, else the first match among
"Time Limit" / "Compilation" / "Runtime" substrings of recorded error messages,
else WA naming the first failing test number. -/
def computeVerdict (allPassed : Bool) (testResults : List TestResult)
    (totalCount : Nat) : String × String :=
  if allPassed then ("AC", s!"Accepted! All {totalCount} test cases passed.")
  else if testResults.any (fun tr => optHasSub tr.error "Time Limit") then
    ("TLE", "Time Limit Exceeded")
  else if testResults.any (fun tr => optHasSub tr.error "Compilation") then
    ("CE", "Compilation Error")
  else if testResults.any (fun tr => optHasSub tr.error "Runtime") then
    ("RE", "Runtime Error")
  else
    match testResults.find? (fun tr => !tr.passed) with
    | some tr =>
        let n := tr.testNumber
        ("WA", s!"Wrong Answer on test {n}")
    | none => ("WA", "Wrong Answer on test ?")

/-- The `SubmissionResult` response model (the API truncates the returned
`test_results` to the first five entries; counts are over the full list). -/
structure SubmissionResult where
  verdict : String
  verdictMessage : String
  passedTests : Nat
  totalTests : Nat
  executionTimeMs : Nat
  testResults : List TestResult
deriving Repr, DecidableEq

/-- `submit_solution` (problems.py): run the loop over the problem's test
cases, count passes over all recorded results, take `total_tests` as the full
test-case count, and derive the verdict.  The second component is the total
number of child processes spawned. -/
def submit_solution (code language : String) (testCases : List TC)
    (os : Nat → ProcOutcome) : SubmissionResult × Nat :=
  let r := runLoop code language os testCases 0 0
  let results := r.1
  let passedCount := (results.filter (fun tr => tr.passed)).length
  let totalCount := testCases.length
  let v := computeVerdict r.2.2.1 results totalCount
  ({ verdict := v.1, verdictMessage := v.2, passedTests := passedCount,
     totalTests := totalCount, executionTimeMs := r.2.1,
     testResults := results.take 5 }, r.2.2.2)

end Problems

namespace Practice

open PyStr

/-- Result dict of `CodeExecutor.execute_python` (practice.py): keys `output`,
`execution_time_ms`, `memory_kb`, `error`, `status`. -/
structure PExecResult where
  output : String
  executionTimeMs : Nat
  memoryKb : Nat
  error : Option String
  status : String
deriving Repr, DecidableEq

/-- `CodeExecutor.TIME_LIMIT_SECONDS = 5`. -/
def TIME_LIMIT_SECONDS : Nat := 5

/-- Denylist `forbidden_keywords` in `CodeExecutor.execute_python`. -/
def forbidden_keywords : List String :=
  ["import os", "import sys", "import subprocess", "import shutil",
   "import requests", "import urllib", "import socket", "import pickle",
   "__import__", "eval", "exec", "compile", "open(", "file("]

/-- `CodeExecutor.execute_python` (practice.py): reject code whose lowercasing
contains a denylisted keyword (first match reported, no process spawned),
otherwise run `python` on the code with the input file as stdin.  On success the
code reports a fixed `memory_kb = 1024`. -/
def execute_python (code _inputData : String) (os : Nat → ProcOutcome) (k : Nat) :
    PExecResult × Nat :=
  match forbidden_keywords.find? (fun kw => strContains (lower code) kw) with
  | some kw =>
      ({ output := "", executionTimeMs := 0, memoryKb := 0,
         error := some ("Forbidden operation detected: " ++ kw),
         status := "error" }, k)
  | none =>
      match os k with
      | .completed rc out err t =>
          if rc ≠ 0 then
            ({ output := "", executionTimeMs := t, memoryKb := 0,
               error := some (strTake err 1000), status := "error" }, k + 1)
          else
            ({ output := strip out, executionTimeMs := t, memoryKb := 1024,
               error := none, status := "success" }, k + 1)
      | .timedOut =>
          ({ output := "", executionTimeMs := TIME_LIMIT_SECONDS * 1000,
             memoryKb := 0, error := some "Time Limit Exceeded",
             status := "timeout" }, k + 1)

/-- Projection of one test-result dict onto the keys `evaluate_verdict` reads:
`r["passed"]`, `r.get("error")` and `r["status"]`.  The `error` field is the
value at the dict key `"error"`, `none` when that key is absent. -/
structure VerdictInput where
  passed : Bool
  error : Option String
  status : String
deriving Repr, DecidableEq

/-- `next((i + 1 for i, r in enumerate(test_results) if not r["passed"]), None)`:
1-based number of the first failing entry. -/
def firstFailed : List VerdictInput → Nat → Option Nat
  | [], _ => none
  | r :: rest, n => if !r.passed then some n else firstFailed rest (n + 1)

/-- `evaluate_verdict` (practice.py): `CE` on an empty list; else `RE` when some
entry has a truthy `error` value and `"error"` occurs in its status; else `TLE`
when some entry's status is `"timeout"`; else `AC` when all passed; else `WA`
naming the first failing test. -/
def evaluate_verdict (testResults : List VerdictInput) : String × String :=
  if testResults.isEmpty then ("CE", "No test cases to evaluate")
  else
    let totalTests := testResults.length
    let passedTests := (testResults.filter (fun r => r.passed)).length
    if testResults.any (fun r => truthy r.error && strContains r.status "error") then
      ("RE", "Runtime Error")
    else if testResults.any (fun r => r.status == "timeout") then
      ("TLE", "Time Limit Exceeded")
    else if passedTests == totalTests then
      ("AC", s!"Accepted ({passedTests}/{totalTests} test cases passed)")
    else
      match firstFailed testResults 1 with
      | some n => ("WA", s!"Wrong Answer on test {n} ({passedTests}/{totalTests} passed)")
      | none => ("WA", s!"Wrong Answer on test None ({passedTests}/{totalTests} passed)")

/-- A generated practice test case (fields used by the loop). -/
structure PTC where
  inputData : String
  expectedOutput : String
deriving Repr, DecidableEq

/-- One test-result dict built by the `submit_code` loop.  Its keys are
`test_number`, `input_data`, `expected_output`, `actual_output`, `passed`,
`execution_time_ms`, `error_message`, `status` — note there is no `"error"`
key: the executor's error string is stored under `"error_message"`. -/
structure PracResult where
  testNumber : Nat
  inputData : String
  expectedOutput : String
  actualOutput : Option String
  passed : Bool
  executionTimeMs : Nat
  errorMessage : Option String
  status : String
deriving Repr, DecidableEq

/-- What `evaluate_verdict` sees of a `submit_code` test-result dict: since the
dict has no `"error"` key, `r.get("error")` is `None` for every entry. -/
def verdictView (r : PracResult) : VerdictInput :=
  { passed := r.passed, error := none, status := r.status }

/-- The `for i, test_case in enumerate(test_cases)` loop of `submit_code`:
execute every test case in order (no early stop), comparing stripped outputs. -/
def runTests (code : String) (os : Nat → ProcOutcome) :
    List PTC → Nat → Nat → List PracResult × Nat
  | [], _, k => ([], k)
  | tc :: rest, i, k =>
      let res := (execute_python code tc.inputData os k).1
      let k1 := (execute_python code tc.inputData os k).2
      let actual := strip res.output
      let expected := strip tc.expectedOutput
      let passed : Bool := res.status == "success" && actual == expected
      let entry : PracResult :=
        { testNumber := i + 1, inputData := tc.inputData,
          expectedOutput := expected,
          actualOutput := if res.status == "success" then some actual else none,
          passed := passed, executionTimeMs := res.executionTimeMs,
          errorMessage := res.error, status := res.status }
      let r2 := runTests code os rest (i + 1) k1
      (entry :: r2.1, r2.2)

/-- Steps 2-3 of `submit_code`: run all test cases, then evaluate the verdict
on the resulting dicts. -/
def submit_code (code : String) (testCases : List PTC) (os : Nat → ProcOutcome) :
    (String × String) × List PracResult × Nat :=
  let r := runTests code os testCases 0 0
  (evaluate_verdict (r.1.map verdictView), r.1, r.2)

end Practice

namespace Compete

/-- One entry of `participation.problem_submissions` (`sub_record` in
`submit_contest_solution`). -/
structure SubRecord where
  problemOrder : Nat
  language : String
  passed : Nat
  total : Nat
  accepted : Bool
  points : Nat
  penaltyMinutes : Nat
deriving Repr, DecidableEq

/-- The contest-participation fields updated by `submit_contest_solution`. -/
structure Participation where
  totalPoints : Nat
  problemsSolved : Nat
  totalPenalty : Nat
  problemSubmissions : List SubRecord
deriving Repr, DecidableEq

/-- Language validation in `submit_contest_solution`:
`if language not in ("python", "cpp", "javascript"): raise 400`. -/
def contest_language_ok (language : String) : Bool :=
  language == "python" || language == "cpp" || language == "javascript"

/-- The scoring tail of `submit_contest_solution` (compete.py lines 846-893),
a pure function of the run outcome and timing state.  `passed`/`total` are the
test counts from the execution loop, `timeFromStart` the whole minutes between
contest start and submission.  An accepted run of a not-yet-solved problem adds
the problem's points and `timeFromStart + 20 * priorWrongAttempts` penalty; the
submission record itself is always appended. -/
def submit_contest_solution (participation : Participation) (problemIndex : Nat)
    (problemPoints : Nat) (language : String) (passed total : Nat)
    (timeFromStart : Nat) : Participation :=
  let isAccepted : Bool := passed == total && decide (0 < total)
  let points := if isAccepted then problemPoints else 0
  let subRecord : SubRecord :=
    { problemOrder := problemIndex, language := language, passed := passed,
      total := total, accepted := isAccepted, points := points,
      penaltyMinutes := timeFromStart }
  let existingAccepted : Bool :=
    participation.problemSubmissions.any
      (fun s => s.problemOrder == problemIndex && s.accepted)
  let wrongAttempts : Nat :=
    (participation.problemSubmissions.filter
      (fun s => s.problemOrder == problemIndex && !s.accepted)).length
  let p1 : Participation :=
    { participation with
        problemSubmissions := participation.problemSubmissions ++ [subRecord] }
  if !existingAccepted && isAccepted then
    { p1 with
        totalPoints := p1.totalPoints + points,
        problemsSolved := p1.problemsSolved + 1,
        totalPenalty := p1.totalPenalty + (timeFromStart + wrongAttempts * 20) }
  else p1

end Compete

namespace CodeApi

open PyStr

/-- `LANGUAGE_IDS` of code.py: Judge0 language ids of the supported tags. -/
def LANGUAGE_IDS : List (String × Nat) :=
  [("python", 71), ("python3", 71), ("cpp", 54), ("c++", 54),
   ("javascript", 63), ("js", 63), ("c", 50), ("java", 62)]

/-- The language validation shared by `run_code` and `submit_challenge`:
`language = request.language.lower(); if language not in LANGUAGE_IDS:
raise HTTPException(400)`.  Returns the Judge0 language id, or the HTTP status
of the client error.  In both endpoints this runs before `create_submission`,
so a rejected request creates no remote submission and spawns nothing. -/
def validate_language (language : String) : Except Nat Nat :=
  match LANGUAGE_IDS.lookup (lower language) with
  | some id => Except.ok id
  | none => Except.error 400

/-- What one `GET /submissions/{token}` poll returns, as read by the loops:
the HTTP status of the response and the Judge0 status id of the submission
(`data["status"]["id"]`, `0` when missing). -/
structure PollResponse where
  httpStatus : Nat
  statusId : Nat
deriving Repr, DecidableEq

/-- Failures raised by `get_submission_result`. -/
inductive PollError where
  /-- `HTTPException(500, "Failed to get submission result")` on a non-200 poll. -/
  | serverError
  /-- `HTTPException(408, "Submission timed out")` after the attempt budget. -/
  | requestTimeout
deriving Repr, DecidableEq

/-- Default `max_attempts = 10` of `get_submission_result`. -/
def MAX_ATTEMPTS : Nat := 10

/-- The `for attempt in range(max_attempts)` loop of `get_submission_result`:
fetch the submission (`responses i` is the i-th poll), raise 500 on a non-200
response, return the (decoded) data once the status id is no longer 1 ("In
Queue") or 2 ("Processing"), else sleep and poll again; raise 408 when the
attempt budget is exhausted. -/
def get_submission_result_loop (responses : Nat → PollResponse) :
    Nat → Nat → Except PollError PollResponse
  | _, 0 => Except.error PollError.requestTimeout
  | i, fuel + 1 =>
      let r := responses i
      if r.httpStatus ≠ 200 then Except.error PollError.serverError
      else if !(r.statusId == 1 || r.statusId == 2) then Except.ok r
      else get_submission_result_loop responses (i + 1) fuel

/-- `get_submission_result(token)` with the default attempt budget. -/
def get_submission_result (responses : Nat → PollResponse) :
    Except PollError PollResponse :=
  get_submission_result_loop responses 0 MAX_ATTEMPTS

/-- The `statuses` dict of `get_status_description`. -/
def statusDescriptions : List (Nat × String) :=
  [(1, "In Queue"), (2, "Processing"), (3, "Accepted"), (4, "Wrong Answer"),
   (5, "Time Limit Exceeded"), (6, "Compilation Error"),
   (7, "Runtime Error (SIGSEGV)"), (8, "Runtime Error (SIGXFSZ)"),
   (9, "Runtime Error (SIGFPE)"), (10, "Runtime Error (SIGABRT)"),
   (11, "Runtime Error (NZEC)"), (12, "Runtime Error (Other)"),
   (13, "Internal Error"), (14, "Exec Format Error")]

/-- `get_status_description`: map a Judge0 status id to its description,
`"Unknown"` for any other id. -/
def get_status_description (statusId : Nat) : String :=
  (statusDescriptions.lookup statusId).getD "Unknown"

/-- Python `s.lower().replace(" ", "_")` used to derive an error status slug. -/
def lowerUnderscore (s : String) : String :=
  ⟨(s.data.map Char.toLower).map (fun c => if c = ' ' then '_' else c)⟩

/-- A challenge test case (models/challenge.py `TestCase`). -/
structure ChTC where
  input : String
  expectedOutput : String
  isHidden : Bool
  points : Nat
deriving Repr, DecidableEq

/-- The fields `submit_challenge` reads from a Judge0 result: the status id,
the reported time (modelled directly in milliseconds; the code converts the
reported seconds-as-float to ms) and memory, absent when Judge0 omits them. -/
structure J0Result where
  statusId : Nat
  timeMs : Option Nat
  memory : Option Nat
  stdout : Option String
deriving Repr, DecidableEq

/-- One entry of `test_results` built by `submit_challenge`; the
input/expected/actual fields are only present for non-hidden test cases. -/
structure ChallengeTestResult where
  testCaseIndex : Nat
  passed : Bool
  status : String
  timeMs : Option Nat
  memoryKb : Option Nat
  actualOutput : Option String
  expectedOutput : Option String
  input : Option String
deriving Repr, DecidableEq

/-- The `for i, test_case in enumerate(challenge.test_cases)` loop of
`submit_challenge`.  `oracle i` is the outcome of creating and polling the
remote submission for the i-th test case; `.error e` is any exception raised
there (HTTP failure, poll timeout).  Accumulates (results, passed_tests,
total_points, max_time, max_memory). -/
def challengeLoop (oracle : Nat → Except String J0Result) :
    List ChTC → Nat →
    Except String (List ChallengeTestResult × Nat × Nat × Nat × Nat)
  | [], _ => Except.ok ([], 0, 0, 0, 0)
  | tc :: rest, i =>
      match oracle i with
      | Except.error e => Except.error e
      | Except.ok result =>
          let passed : Bool := result.statusId == 3
          let entry : ChallengeTestResult :=
            { testCaseIndex := i, passed := passed,
              status := get_status_description result.statusId,
              timeMs := result.timeMs, memoryKb := result.memory,
              actualOutput := if tc.isHidden then none else some (result.stdout.getD ""),
              expectedOutput := if tc.isHidden then none else some tc.expectedOutput,
              input := if tc.isHidden then none else some tc.input }
          match challengeLoop oracle rest (i + 1) with
          | Except.error e => Except.error e
          | Except.ok tail =>
              Except.ok (entry :: tail.1,
                (if passed then 1 else 0) + tail.2.1,
                (if passed then tc.points else 0) + tail.2.2.1,
                (match result.timeMs with
                 | some t => max tail.2.2.2.1 t
                 | none => tail.2.2.2.1),
                (match result.memory with
                 | some m => max tail.2.2.2.2 m
                 | none => tail.2.2.2.2))

/-- The overall-status block of `submit_challenge`: `accepted` when all tests
passed, `partial` when some did, otherwise derived from the first test's
status description (slugified when it mentions an error). -/
def final_status (passedTests totalTests : Nat)
    (results : List ChallengeTestResult) : String :=
  if passedTests == totalTests then "accepted"
  else if 0 < passedTests then "partial"
  else
    match results.head? with
    | some r =>
        if strContains r.status "Error" then lowerUnderscore r.status
        else "wrong_answer"
    | none => "wrong_answer"

/-- The durable `Submission` record fields driven by `submit_challenge`. -/
structure Submission where
  status : String
  passedTests : Nat
  score : Nat
  errorMessage : Option String
deriving Repr, DecidableEq

/-- `submit_challenge` after validation: insert the record with status
`"running"`, run every test case, and either save the judged record, or — on
any exception in the orchestration — save the record with status `"error"` and
re-raise `HTTPException(500, f"Submission failed: {e}")`.  The first component
is the record as left by the last `submission.save()`; the second is the HTTP
outcome. -/
def submit_challenge (testCases : List ChTC)
    (oracle : Nat → Except String J0Result) : Submission × Except String String :=
  let initial : Submission :=
    { status := "running", passedTests := 0, score := 0, errorMessage := none }
  match challengeLoop oracle testCases 0 with
  | Except.error e =>
      ({ initial with status := "error", errorMessage := some e },
       Except.error ("Submission failed: " ++ e))
  | Except.ok out =>
      let st := final_status out.2.1 testCases.length out.1
      ({ initial with status := st, passedTests := out.2.1, score := out.2.2.1 },
       Except.ok st)

end CodeApi

namespace Judge0Svc

open PyStr

/-- `LANGUAGE_IDS` of services/judge0.py. -/
def LANGUAGE_IDS : List (String × Nat) :=
  [("python", 71), ("python3", 71), ("cpp", 54), ("c++", 54),
   ("javascript", 63), ("js", 63), ("java", 62), ("c", 50),
   ("ruby", 72), ("go", 60), ("rust", 73), ("typescript", 74)]

/-- `Judge0Service.get_language_id`:
`LANGUAGE_IDS.get(language.lower(), 71)  # Default to Python`. -/
def get_language_id (language : String) : Nat :=
  (LANGUAGE_IDS.lookup (lower language)).getD 71

/-- Default `max_attempts = 20` of `_poll_submission`. -/
def MAX_ATTEMPTS : Nat := 20

/-- The `for _ in range(max_attempts)` loop of `_poll_submission`: each poll
(`responses i`) either raises on a non-2xx response (`raise_for_status`,
modelled as `.error ()`), returns the result when its status id is neither 1
nor 2, or sleeps and retries.  When the budget is exhausted the function
returns the result of the **last** poll — terminal or not.  `last` carries
that most recent result. -/
def poll_submission_loop (responses : Nat → CodeApi.PollResponse) :
    Nat → Nat → CodeApi.PollResponse → Except Unit CodeApi.PollResponse
  | _, 0, last => Except.ok last
  | i, fuel + 1, _ =>
      let r := responses i
      if r.httpStatus ≠ 200 then Except.error ()
      else if !(r.statusId == 1 || r.statusId == 2) then Except.ok r
      else poll_submission_loop responses (i + 1) fuel r

/-- `_poll_submission(token)` with the default budget.  The initial `last`
value is a placeholder: with `MAX_ATTEMPTS = 20 > 0`, the loop body always
overwrites it before the budget can run out (in Python, `result` is assigned
in the first iteration). -/
def poll_submission (responses : Nat → CodeApi.PollResponse) :
    Except Unit CodeApi.PollResponse :=
  poll_submission_loop responses 0 MAX_ATTEMPTS { httpStatus := 0, statusId := 0 }

end Judge0Svc

namespace Problems

/-- True when the python denylist matches `code` (the pre-filter fires). -/
def hasForbidden (code : String) : Bool :=
  forbidden.any (fun f => PyStr.strContains (PyStr.lower code) f)

/-- The executor result of one clean (not denylist-rejected) python run with
process outcome `po`. -/
def pyResult : ProcOutcome → ExecResult
  | .completed rc _out err t =>
      if rc ≠ 0 then
        { output := "", error := some (PyStr.strTake err 1000),
          executionTimeMs := t, status := "error" }
      else
        { output := PyStr.strip _out, error := none,
          executionTimeMs := t, status := "success" }
  | .timedOut =>
      { output := "", error := some "Time Limit Exceeded",
        executionTimeMs := TIME_LIMIT * 1000, status := "timeout" }

/-- Whether a clean python run with outcome `po` passes test case `tc`:
success status and stripped stdout equal to the stripped expected output. -/
def passes (tc : TC) (po : ProcOutcome) : Bool :=
  (pyResult po).status == "success" &&
    PyStr.strip (pyResult po).output == PyStr.strip tc.output

/-- The result record of one executed python test. -/
def mkEntry (tc : TC) (po : ProcOutcome) (i : Nat) : TestResult :=
  { testNumber := i + 1, passed := passes tc po, inputData := tc.input,
    expectedOutput := PyStr.strip tc.output,
    actualOutput :=
      if (pyResult po).status == "success" then
        some (PyStr.strip (pyResult po).output)
      else none,
    executionTimeMs := (pyResult po).executionTimeMs,
    error := (pyResult po).error }

/-- Result records of executing every test of `tcs` in order, test numbers
starting at `i + 1` and oracle indices at `k`. -/
def pyEntries (os : Nat → ProcOutcome) : List TC → Nat → Nat → List TestResult
  | [], _, _ => []
  | tc :: rest, i, k => mkEntry tc (os k) i :: pyEntries os rest (i + 1) (k + 1)

/-- Total reported execution time of those runs. -/
def pyTime (os : Nat → ProcOutcome) : List TC → Nat → Nat
  | [], _ => 0
  | _tc :: rest, k => (pyResult (os k)).executionTimeMs + pyTime os rest (k + 1)

/-- Whether every one of those runs passes its test. -/
def pyAll (os : Nat → ProcOutcome) : List TC → Nat → Bool
  | [], _ => true
  | tc :: rest, k => passes tc (os k) && pyAll os rest (k + 1)

end Problems

namespace Problems

/-- The result records `submit_solution` writes when every execution is
rejected by the pre-filter with message `msg` (no process runs, every entry
fails with zero time): executed rejection records until the early stop fires
at 0-based index 2, then skipped records. -/
def rejEntries (msg : String) : List TC → Nat → List TestResult
  | [], _ => []
  | tc :: rest, i =>
      { testNumber := i + 1, passed := false, inputData := tc.input,
        expectedOutput := PyStr.strip tc.output, actualOutput := none,
        executionTimeMs := 0, error := some msg } ::
      (if 2 ≤ i then skipEntries rest (i + 2) else rejEntries msg rest (i + 1))

end Problems

namespace Examples

/-- A contest participation with two wrong attempts recorded for problem 0. -/
def partTwoWrong : Compete.Participation :=
  { totalPoints := 0, problemsSolved := 0, totalPenalty := 0,
    problemSubmissions :=
      [{ problemOrder := 0, language := "python", passed := 1, total := 3,
         accepted := false, points := 0, penaltyMinutes := 4 },
       { problemOrder := 0, language := "python", passed := 2, total := 3,
         accepted := false, points := 0, penaltyMinutes := 9 }] }

/-- Oracle mixing failure modes: the first run crashes with a stderr that
mentions "Runtime", the second run times out, every later run prints "1". -/
def osMix : Nat → ProcOutcome := fun k =>
  if k = 0 then ProcOutcome.completed 1 "" "RuntimeError: boom" 7
  else if k = 1 then ProcOutcome.timedOut
  else ProcOutcome.completed 0 "1" "" 5

/-- Three test cases all expecting output "1". -/
def threeOnes : List Problems.TC := [⟨"a", "1"⟩, ⟨"b", "1"⟩, ⟨"c", "1"⟩]

/-- Four test cases all expecting output "1". -/
def fourOnes : List Problems.TC :=
  [⟨"a", "1"⟩, ⟨"b", "1"⟩, ⟨"c", "1"⟩, ⟨"d", "1"⟩]

/-- Oracle whose third run (index 2) prints the wrong answer; all others
print "1". -/
def osFailThird : Nat → ProcOutcome := fun k =>
  if k = 2 then ProcOutcome.completed 0 "0" "" 5
  else ProcOutcome.completed 0 "1" "" 5

/-- Oracle where every run prints "1". -/
def osAllOnes : Nat → ProcOutcome := fun _ => ProcOutcome.completed 0 "1" "" 5

/-- Oracle whose first run (index 0) prints the wrong answer; all others
print "1". -/
def osFailFirst : Nat → ProcOutcome := fun k =>
  if k = 0 then ProcOutcome.completed 0 "0" "" 5
  else ProcOutcome.completed 0 "1" "" 5

end Examples

namespace Problems

theorem execute_python_eq (code stdin : String) (os : Nat → ProcOutcome) (k : Nat)
    (h : hasForbidden code = false) :
    execute code "python" stdin os k = (pyResult (os k), k + 1) := by
  unfold hasForbidden at h
  have hall := List.any_eq_false.mp h
  show execute_python code stdin os k = _
  unfold execute_python
  rw [List.find?_eq_none.mpr hall]
  cases os k with
  | completed rc out err t =>
      by_cases hrc : rc ≠ 0 <;> simp [pyResult, hrc]
  | timedOut => rfl

theorem skipEntries_length : ∀ (l : List TC) (n : Nat),
    (skipEntries l n).length = l.length := by
  intro l
  induction l with
  | nil => intro n; rfl
  | cons tc rest ih => intro n; simp [skipEntries, ih]

theorem skipEntries_forall : ∀ (l : List TC) (n : Nat), ∀ tr ∈ skipEntries l n,
    tr.passed = false ∧ tr.executionTimeMs = 0 ∧
      tr.error = some "Skipped due to previous failure" := by
  intro l
  induction l with
  | nil => intro n tr htr; cases htr
  | cons tc rest ih =>
      intro n tr htr
      rcases List.mem_cons.mp htr with h | h
      · subst h; exact ⟨rfl, rfl, rfl⟩
      · exact ih (n + 1) tr h

theorem runLoop_length (code language : String) (os : Nat → ProcOutcome) :
    ∀ (tcs : List TC) (i k : Nat),
      (runLoop code language os tcs i k).1.length = tcs.length := by
  intro tcs
  induction tcs with
  | nil => intro i k; rfl
  | cons tc rest ih =>
      intro i k
      simp only [runLoop]
      split
      · simp [skipEntries_length]
      · simp [ih]

theorem runLoop_allPassed (code language : String) (os : Nat → ProcOutcome) :
    ∀ (tcs : List TC) (i k : Nat),
      (runLoop code language os tcs i k).2.2.1 =
        (runLoop code language os tcs i k).1.all (fun tr => tr.passed) := by
  intro tcs
  induction tcs with
  | nil => intro i k; rfl
  | cons tc rest ih =>
      intro i k
      simp only [runLoop]
      split
      · rename_i hcond
        simp only [Bool.and_eq_true, Bool.not_eq_true'] at hcond
        simp [List.all_cons, hcond.1]
      · simp [List.all_cons, ih]

theorem computeVerdict_fst_eq_AC_iff (b : Bool) (results : List TestResult)
    (n : Nat) : (computeVerdict b results n).1 = "AC" ↔ b = true := by
  cases b with
  | true => simp [computeVerdict]
  | false =>
      simp only [computeVerdict, Bool.false_eq_true, if_false]
      constructor
      · intro h
        exfalso
        revert h
        split
        · decide
        · split
          · decide
          · split
            · decide
            · split
              · simp
              · simp
      · intro h; cases h

end Problems

/-- C3 (amended): in `submit_solution`, `passedTests = totalTests` iff the
verdict is `"AC"` — but with no `totalCount > 0` requirement: a run over an
empty test-case list receives the `"AC"` verdict (with 0 = 0 counts), while
practice's `evaluate_verdict` answers `CE` on an empty outcome list. -/
theorem accepted_iff_all_counts :
    (∀ (code language : String) (tcs : List Problems.TC) (os : Nat → ProcOutcome),
        ((Problems.submit_solution code language tcs os).1.verdict = "AC" ↔
          (Problems.submit_solution code language tcs os).1.passedTests =
            (Problems.submit_solution code language tcs os).1.totalTests)) ∧
    (∀ (code language : String) (os : Nat → ProcOutcome),
        (Problems.submit_solution code language [] os).1.verdict = "AC") ∧
    Practice.evaluate_verdict [] = ("CE", "No test cases to evaluate") := by
  refine ⟨fun code language tcs os => ?_, fun code language os => rfl, rfl⟩
  simp only [Problems.submit_solution]
  rw [Problems.computeVerdict_fst_eq_AC_iff, Problems.runLoop_allPassed,
    List.all_eq_true, ← Problems.runLoop_length code language os tcs 0 0]
  exact Iff.symm List.filter_length_eq_length

/-- C3 counterexample: a run over an empty test-case list is Accepted with
`passedCount = totalCount = 0`, contradicting the claim that such a run must
not receive the Accepted verdict. -/
theorem empty_run_accepted_counterexample :
    (Problems.submit_solution "print(1)" "python" []
        (fun _ => ProcOutcome.timedOut)).1.verdict = "AC" ∧
    (Problems.submit_solution "print(1)" "python" []
        (fun _ => ProcOutcome.timedOut)).1.passedTests = 0 ∧
    (Problems.submit_solution "print(1)" "python" []
        (fun _ => ProcOutcome.timedOut)).1.totalTests = 0 :=
  ⟨rfl, rfl, rfl⟩

/-- C6: the contest penalty overlay of `submit_contest_solution`.  For a first
accepted submission to a problem, the points awarded equal the problem's
points and the cumulative penalty grows by `timeFromStart + 20 * wrong`
(`wrong` = prior non-accepted submissions for that problem); when the problem
was already solved, the submission is appended to the record list but points,
penalty and solved count are unchanged. -/
theorem contest_penalty_overlay (p : Compete.Participation) (idx pts : Nat)
    (lang : String) (passed total t : Nat) :
    ((passed == total && decide (0 < total)) = true →
      p.problemSubmissions.any (fun s => s.problemOrder == idx && s.accepted)
          = false →
        (Compete.submit_contest_solution p idx pts lang passed total t).totalPoints
            = p.totalPoints + pts ∧
        (Compete.submit_contest_solution p idx pts lang passed total t).totalPenalty
            = p.totalPenalty + (t + (p.problemSubmissions.filter
                (fun s => s.problemOrder == idx && !s.accepted)).length * 20) ∧
        (Compete.submit_contest_solution p idx pts lang passed total t).problemsSolved
            = p.problemsSolved + 1 ∧
        (Compete.submit_contest_solution p idx pts lang passed total t).problemSubmissions
            = p.problemSubmissions ++
                [{ problemOrder := idx, language := lang, passed := passed,
                   total := total, accepted := true, points := pts,
                   penaltyMinutes := t }]) ∧
    ((passed == total && decide (0 < total)) = true →
      p.problemSubmissions.any (fun s => s.problemOrder == idx && s.accepted)
          = true →
        (Compete.submit_contest_solution p idx pts lang passed total t).totalPoints
            = p.totalPoints ∧
        (Compete.submit_contest_solution p idx pts lang passed total t).totalPenalty
            = p.totalPenalty ∧
        (Compete.submit_contest_solution p idx pts lang passed total t).problemsSolved
            = p.problemsSolved ∧
        (Compete.submit_contest_solution p idx pts lang passed total t).problemSubmissions.length
            = p.problemSubmissions.length + 1) := by
  constructor
  · intro hAcc hEx
    simp [Compete.submit_contest_solution, hAcc, hEx]
  · intro hAcc hEx
    simp [Compete.submit_contest_solution, hAcc, hEx]

/-- C6 witness: first acceptance at minute 12 after two wrong attempts adds
penalty 12 + 40 = 52 and awards the problem's 100 points. -/
theorem contest_penalty_overlay_witness :
    (Compete.submit_contest_solution Examples.partTwoWrong 0 100 "python" 3 3
        12).totalPenalty = 52 ∧
    (Compete.submit_contest_solution Examples.partTwoWrong 0 100 "python" 3 3
        12).totalPoints = 100 := by
  have h := (contest_penalty_overlay Examples.partTwoWrong 0 100 "python" 3 3
    12).1 rfl rfl
  exact ⟨by rw [h.2.1]; rfl, by rw [h.1]; rfl⟩

/-- C7 (amended): the HTTP execution entry points reject unknown language tags
with a 400 client error before creating any submission (`run_code` /
`submit_challenge` via `validate_language`, `submit_contest_solution` via its
tuple membership test), but `Judge0Service.get_language_id` silently maps every
unknown tag to 71, the Python language id. -/
theorem language_validation :
    (∀ language : String,
        CodeApi.LANGUAGE_IDS.lookup (PyStr.lower language) = none →
          CodeApi.validate_language language = Except.error 400) ∧
    (∀ language : String, language ≠ "python" → language ≠ "cpp" →
        language ≠ "javascript" → Compete.contest_language_ok language = false) ∧
    (∀ language : String,
        Judge0Svc.LANGUAGE_IDS.lookup (PyStr.lower language) = none →
          Judge0Svc.get_language_id language = 71) := by
  refine ⟨fun language h => ?_, fun language h1 h2 h3 => ?_, fun language h => ?_⟩
  · unfold CodeApi.validate_language
    rw [h]
  · have b1 : (language == "python") = false := beq_eq_false_iff_ne.mpr h1
    have b2 : (language == "cpp") = false := beq_eq_false_iff_ne.mpr h2
    have b3 : (language == "javascript") = false := beq_eq_false_iff_ne.mpr h3
    simp [Compete.contest_language_ok, b1, b2, b3]
  · unfold Judge0Svc.get_language_id
    rw [h]
    rfl

/-- C7 counterexample: the unknown tag "golfscript" is not rejected by
`get_language_id`; it is silently mapped to 71 — the same id the supported tag
"python" gets. -/
theorem get_language_id_default_counterexample :
    Judge0Svc.get_language_id "golfscript" = 71 ∧
    Judge0Svc.LANGUAGE_IDS.lookup (PyStr.lower "golfscript") = none ∧
    Judge0Svc.get_language_id "python" = 71 :=
  ⟨rfl, rfl, rfl⟩

/-- C7 witness: at the concrete unknown tag "golfscript", the entry points
reject with 400 while the Judge0 service defaults to 71. -/
theorem language_validation_witness :
    CodeApi.validate_language "golfscript" = Except.error 400 ∧
    Compete.contest_language_ok "golfscript" = false ∧
    Judge0Svc.get_language_id "golfscript" = 71 := by
  refine ⟨language_validation.1 "golfscript" rfl,
    language_validation.2.1 "golfscript" (by decide) (by decide) (by decide),
    language_validation.2.2 "golfscript" rfl⟩

/-- C2 (amended): practice's `evaluate_verdict` does give RuntimeError priority
over TimeLimitExceeded — an outcome with a truthy error value and an "error"
status forces verdict RE even if another outcome timed out, and a TLE verdict
implies no such runtime-error outcome exists.  (The inline verdict block of
problems.py `submit_solution` instead checks "Time Limit" first; see the
counterexample.) -/
theorem evaluate_verdict_re_priority :
    (∀ rs : List Practice.VerdictInput,
        rs.any (fun r => PyStr.truthy r.error && PyStr.strContains r.status "error")
            = true →
          Practice.evaluate_verdict rs = ("RE", "Runtime Error")) ∧
    (∀ rs : List Practice.VerdictInput,
        (Practice.evaluate_verdict rs).1 = "TLE" →
          rs.any (fun r => PyStr.truthy r.error && PyStr.strContains r.status "error")
              = false ∧
          rs.any (fun r => r.status == "timeout") = true) := by
  constructor
  · intro rs h
    cases rs with
    | nil => simp at h
    | cons a l => simp [Practice.evaluate_verdict, h]
  · intro rs h
    cases rs with
    | nil => simp [Practice.evaluate_verdict] at h
    | cons a l =>
        by_cases hre : (a :: l).any
            (fun r => PyStr.truthy r.error && PyStr.strContains r.status "error") = true
        · simp [Practice.evaluate_verdict, hre] at h
        · have hre0 := Bool.eq_false_iff.mpr hre
          by_cases hto : (a :: l).any (fun r => r.status == "timeout") = true
          · exact ⟨hre0, hto⟩
          · have hto0 := Bool.eq_false_iff.mpr hto
            exfalso
            simp only [Practice.evaluate_verdict, List.isEmpty_cons, hre0, hto0] at h
            split at h
            · simp at h
            · cases hff : Practice.firstFailed (a :: l) 1 with
              | none => rw [hff] at h; split at h <;> simp at h
              | some n => rw [hff] at h; split at h <;> simp at h

/-- C2 counterexample: in `submit_solution`, a run containing a runtime-error
outcome (error text mentioning "Runtime") and a timed-out outcome — and no
compile failure — is classified TLE, not RE: the inline verdict checks "Time
Limit" before "Runtime". -/
theorem submit_tle_over_re_counterexample :
    (Problems.submit_solution "x = input()" "python" Examples.threeOnes
        Examples.osMix).1.verdict = "TLE" ∧
    (Problems.submit_solution "x = input()" "python" Examples.threeOnes
        Examples.osMix).1.testResults.any
        (fun tr => PyStr.optHasSub tr.error "Runtime") = true ∧
    (Problems.submit_solution "x = input()" "python" Examples.threeOnes
        Examples.osMix).1.testResults.any
        (fun tr => PyStr.optHasSub tr.error "Compilation") = false :=
  ⟨rfl, rfl, rfl⟩

/-- C2 witness: a runtime-error outcome next to a timed-out outcome gets
verdict RE from `evaluate_verdict`. -/
theorem evaluate_verdict_re_priority_witness :
    Practice.evaluate_verdict
        [⟨false, some "boom", "error"⟩, ⟨false, none, "timeout"⟩]
        = ("RE", "Runtime Error") :=
  evaluate_verdict_re_priority.1 _ rfl

namespace CodeApi

theorem get_submission_result_loop_ok_terminal (responses : Nat → PollResponse) :
    ∀ (fuel i : Nat) (r : PollResponse),
      get_submission_result_loop responses i fuel = Except.ok r →
      ¬(r.statusId = 1 ∨ r.statusId = 2) := by
  intro fuel
  induction fuel with
  | zero =>
      intro i r h
      exact absurd h (by simp [get_submission_result_loop])
  | succ n ih =>
      intro i r h
      rw [get_submission_result_loop] at h
      by_cases h200 : (responses i).httpStatus ≠ 200
      · rw [if_pos h200] at h
        exact absurd h (by simp)
      · rw [if_neg h200] at h
        by_cases hterm :
            (!((responses i).statusId == 1 || (responses i).statusId == 2)) = true
        · rw [if_pos hterm] at h
          obtain rfl : responses i = r := by
            simpa using h
          simpa using hterm
        · rw [if_neg hterm] at h
          exact ih (i + 1) r h

theorem get_submission_result_loop_all_busy (responses : Nat → PollResponse) :
    ∀ (fuel i : Nat),
      (∀ j, j < fuel → (responses (i + j)).httpStatus = 200 ∧
          ((responses (i + j)).statusId = 1 ∨ (responses (i + j)).statusId = 2)) →
      get_submission_result_loop responses i fuel
        = Except.error PollError.requestTimeout := by
  intro fuel
  induction fuel with
  | zero => intro i _; rfl
  | succ n ih =>
      intro i h
      have h0 := h 0 (Nat.succ_pos n)
      rw [Nat.add_zero] at h0
      rw [get_submission_result_loop]
      rw [if_neg (by simp [h0.1])]
      rw [if_neg (by rcases h0.2 with h2 | h2 <;> simp [h2])]
      exact ih (i + 1) (fun j hj => by
        have hh := h (j + 1) (by omega)
        have e : i + (j + 1) = i + 1 + j := by omega
        rw [e] at hh
        exact hh)

end CodeApi

/-- C8 (amended): code.py's `get_submission_result` polls until the remote
status id is neither 1 nor 2, within a fixed attempt budget, and raises the
request-timeout error 408 — an error distinct from any returned program result
— when every attempt is still queued/processing.  (The judge0 service's
`_poll_submission` instead returns the last, possibly still non-terminal,
result when its budget runs out; see the counterexample.) -/
theorem poll_terminal_or_timeout :
    (∀ (responses : Nat → CodeApi.PollResponse) (r : CodeApi.PollResponse),
        CodeApi.get_submission_result responses = Except.ok r →
          ¬(r.statusId = 1 ∨ r.statusId = 2)) ∧
    (∀ responses : Nat → CodeApi.PollResponse,
        (∀ i, i < CodeApi.MAX_ATTEMPTS → (responses i).httpStatus = 200 ∧
            ((responses i).statusId = 1 ∨ (responses i).statusId = 2)) →
          CodeApi.get_submission_result responses
            = Except.error CodeApi.PollError.requestTimeout) ∧
    CodeApi.PollError.requestTimeout ≠ CodeApi.PollError.serverError := by
  refine ⟨fun responses r h =>
      CodeApi.get_submission_result_loop_ok_terminal responses CodeApi.MAX_ATTEMPTS 0 r h,
    fun responses h => ?_, by decide⟩
  exact CodeApi.get_submission_result_loop_all_busy responses CodeApi.MAX_ATTEMPTS 0
    (fun j hj => by simpa using h j hj)

/-- C8 counterexample: with every poll answering 200/"Processing" (status id
2), the judge0 client's `_poll_submission` exhausts its 20 attempts and returns
the still-non-terminal result instead of surfacing a request-timeout error. -/
theorem judge0_poll_nonterminal_counterexample :
    Judge0Svc.poll_submission (fun _ => { httpStatus := 200, statusId := 2 })
      = Except.ok { httpStatus := 200, statusId := 2 } :=
  rfl

/-- C8 witness: an always-busy response stream makes `get_submission_result`
raise the 408 request-timeout error, and a stream that turns terminal (status
id 3) yields a result whose status id is neither 1 nor 2. -/
theorem poll_terminal_or_timeout_witness :
    CodeApi.get_submission_result (fun _ => { httpStatus := 200, statusId := 2 })
        = Except.error CodeApi.PollError.requestTimeout ∧
    ¬((3 : Nat) = 1 ∨ (3 : Nat) = 2) := by
  constructor
  · exact poll_terminal_or_timeout.2.1 _ (fun i _ => ⟨rfl, Or.inr rfl⟩)
  · exact poll_terminal_or_timeout.1 (fun _ => { httpStatus := 200, statusId := 3 })
      { httpStatus := 200, statusId := 3 } rfl

namespace CodeApi

theorem get_status_description_mem (statusId : Nat) :
    get_status_description statusId ∈
      (["In Queue", "Processing", "Accepted", "Wrong Answer",
        "Time Limit Exceeded", "Compilation Error", "Runtime Error (SIGSEGV)",
        "Runtime Error (SIGXFSZ)", "Runtime Error (SIGFPE)",
        "Runtime Error (SIGABRT)", "Runtime Error (NZEC)",
        "Runtime Error (Other)", "Internal Error", "Exec Format Error",
        "Unknown"] : List String) := by
  unfold get_status_description statusDescriptions
  simp only [List.lookup]
  repeat' split
  all_goals simp

theorem status_slug_ne_running (statusId : Nat) :
    lowerUnderscore (get_status_description statusId) ≠ "running" ∧
    get_status_description statusId ≠ "running" := by
  have hball : ∀ s ∈ (["In Queue", "Processing", "Accepted", "Wrong Answer",
      "Time Limit Exceeded", "Compilation Error", "Runtime Error (SIGSEGV)",
      "Runtime Error (SIGXFSZ)", "Runtime Error (SIGFPE)",
      "Runtime Error (SIGABRT)", "Runtime Error (NZEC)",
      "Runtime Error (Other)", "Internal Error", "Exec Format Error",
      "Unknown"] : List String),
      lowerUnderscore s ≠ "running" ∧ s ≠ "running" := by decide
  exact hball _ (get_status_description_mem statusId)

theorem challengeLoop_status (oracle : Nat → Except String J0Result) :
    ∀ (tcs : List ChTC) (i : Nat) out,
      challengeLoop oracle tcs i = Except.ok out →
      ∀ r ∈ out.1, ∃ id, r.status = get_status_description id := by
  intro tcs
  induction tcs with
  | nil =>
      intro i out h r hr
      obtain rfl : (([], 0, 0, 0, 0) :
          List ChallengeTestResult × Nat × Nat × Nat × Nat) = out := by
        simpa [challengeLoop] using h
      cases hr
  | cons tc rest ih =>
      intro i out h r hr
      rw [challengeLoop] at h
      cases ho : oracle i with
      | error e => rw [ho] at h; exact absurd h (by simp)
      | ok result =>
          rw [ho] at h
          cases hrec : challengeLoop oracle rest (i + 1) with
          | error e => rw [hrec] at h; exact absurd h (by simp)
          | ok tail =>
              rw [hrec] at h
              obtain rfl := (Except.ok.injEq _ _).mp h
              rcases List.mem_cons.mp hr with hhead | htail
              · subst hhead
                exact ⟨result.statusId, rfl⟩
              · exact ih (i + 1) tail hrec r htail

theorem final_status_ne_running (p t : Nat) (results : List ChallengeTestResult)
    (hres : ∀ r ∈ results, ∃ id, r.status = get_status_description id) :
    final_status p t results ≠ "running" := by
  unfold final_status
  split
  · decide
  · split
    · decide
    · cases hh : results.head? with
      | none => simp
      | some r =>
          simp only [hh]
          split
          · obtain ⟨id, hid⟩ := hres r (List.mem_of_mem_head? hh)
            rw [hid]
            exact (status_slug_ne_running id).1
          · decide

end CodeApi

/-- C9: `submit_challenge` never leaves the submission record in the
`"running"` state: after the record is created, every orchestration outcome —
including an exception raised while judging — saves the record with a terminal
status before the failure propagates, and an orchestration error specifically
stores status `"error"`. -/
theorem submission_never_left_running :
    (∀ (tcs : List CodeApi.ChTC) (oracle : Nat → Except String CodeApi.J0Result),
        (CodeApi.submit_challenge tcs oracle).1.status ≠ "running") ∧
    (∀ (tcs : List CodeApi.ChTC) (oracle : Nat → Except String CodeApi.J0Result)
        (e : String),
        (CodeApi.submit_challenge tcs oracle).2 = Except.error e →
          (CodeApi.submit_challenge tcs oracle).1.status = "error") := by
  constructor
  · intro tcs oracle
    unfold CodeApi.submit_challenge
    cases hrun : CodeApi.challengeLoop oracle tcs 0 with
    | error e => simp
    | ok out =>
        simp only []
        exact CodeApi.final_status_ne_running out.2.1 tcs.length out.1
          (CodeApi.challengeLoop_status oracle tcs 0 out hrun)
  · intro tcs oracle e h
    unfold CodeApi.submit_challenge at h ⊢
    cases hrun : CodeApi.challengeLoop oracle tcs 0 with
    | error e2 => simp
    | ok out => rw [hrun] at h; exact absurd h (by simp)

/-- C9 witness: a remote failure while judging the single test case leaves the
saved record with status "error", not "running". -/
theorem submission_never_left_running_witness :
    (CodeApi.submit_challenge [⟨"1", "1", false, 10⟩]
        (fun _ => Except.error "boom")).1.status = "error" :=
  submission_never_left_running.2 [⟨"1", "1", false, 10⟩]
    (fun _ => Except.error "boom") "Submission failed: boom" rfl

/-- C10: the denylist pre-filter is consulted only by the python strategy: a
python call leaves the spawn counter untouched exactly when the denylist fires,
while the C++ and JavaScript strategies always consult the external process
(compiler / node) for every source text — they never reject before execution —
and any error string they return is either the fixed timeout message, the
compiler/runtime diagnostic taken from the process's stderr, or the
compilation-error wrapper around it; no "Forbidden" rejection is produced. -/
theorem prefilter_only_for_python :
    (∀ (code stdin : String) (os : Nat → ProcOutcome) (k : Nat),
        ((Problems.execute_python code stdin os k).2 = k ↔
          Problems.hasForbidden code = true)) ∧
    (∀ (code stdin : String) (os : Nat → ProcOutcome) (k : Nat),
        k + 1 ≤ (Problems.execute_cpp code stdin os k).2) ∧
    (∀ (code stdin : String) (os : Nat → ProcOutcome) (k : Nat),
        (Problems.execute_javascript code stdin os k).2 = k + 1) ∧
    (∀ (code stdin : String) (os : Nat → ProcOutcome) (k : Nat) (e : String),
        (Problems.execute_javascript code stdin os k).1.error = some e →
          e = "Time Limit Exceeded" ∨
          ∃ rc out err t, os k = ProcOutcome.completed rc out err t ∧
            e = PyStr.strTake err 1000) ∧
    (∀ (code stdin : String) (os : Nat → ProcOutcome) (k : Nat) (e : String),
        (Problems.execute_cpp code stdin os k).1.error = some e →
          e = "Time Limit Exceeded" ∨
          (∃ rc out cerr t, os k = ProcOutcome.completed rc out cerr t ∧
            e = "Compilation Error:\n" ++ PyStr.strTake cerr 1000) ∨
          (∃ rc out err t, os (k + 1) = ProcOutcome.completed rc out err t ∧
            e = PyStr.strOr (PyStr.strTake err 1000) "Runtime Error")) := by
  refine ⟨fun code stdin os k => ?_, fun code stdin os k => ?_,
    fun code stdin os k => ?_, fun code stdin os k e h => ?_,
    fun code stdin os k e h => ?_⟩
  · unfold Problems.execute_python
    cases hfind : Problems.forbidden.find?
        (fun f => PyStr.strContains (PyStr.lower code) f) with
    | some f =>
        simp only [hfind]
        constructor
        · intro _
          unfold Problems.hasForbidden
          rw [List.any_eq_true]
          exact ⟨f, List.mem_of_find?_eq_some hfind, List.find?_some hfind⟩
        · intro _; trivial
    | none =>
        simp only [hfind]
        have hfalse : Problems.hasForbidden code = false := by
          unfold Problems.hasForbidden
          rw [List.any_eq_false]
          exact fun x hx => by simpa using List.find?_eq_none.mp hfind x hx
        rw [hfalse]
        cases os k with
        | completed rc out err t => by_cases hrc : rc ≠ 0 <;> simp [hrc]
        | timedOut => simp
  · unfold Problems.execute_cpp
    cases os k with
    | timedOut => simp
    | completed crc out cerr t =>
        by_cases hc : crc ≠ 0
        · simp [hc]
        · dsimp only
          rw [if_neg hc]
          cases os (k + 1) with
          | timedOut => show k + 1 ≤ k + 2; omega
          | completed rc2 out2 err2 t2 =>
              by_cases hr : rc2 ≠ 0 <;> simp [hr]
  · unfold Problems.execute_javascript
    cases os k with
    | timedOut => rfl
    | completed rc out err t => by_cases hr : rc ≠ 0 <;> simp [hr]
  · unfold Problems.execute_javascript at h
    cases ho : os k with
    | timedOut =>
        rw [ho] at h
        simp only [Option.some.injEq] at h
        exact Or.inl h.symm
    | completed rc out err t =>
        rw [ho] at h
        dsimp only at h
        by_cases hr : rc ≠ 0
        · rw [if_pos hr] at h
          simp only [Option.some.injEq] at h
          exact Or.inr ⟨rc, out, err, t, rfl, h.symm⟩
        · rw [if_neg hr] at h
          exact absurd h (by simp)
  · unfold Problems.execute_cpp at h
    cases ho : os k with
    | timedOut =>
        rw [ho] at h
        simp only [Option.some.injEq] at h
        exact Or.inl h.symm
    | completed crc out cerr t =>
        rw [ho] at h
        dsimp only at h
        by_cases hc : crc ≠ 0
        · rw [if_pos hc] at h
          simp only [Option.some.injEq] at h
          exact Or.inr (Or.inl ⟨crc, out, cerr, t, rfl, h.symm⟩)
        · rw [if_neg hc] at h
          cases ho2 : os (k + 1) with
          | timedOut =>
              rw [ho2] at h
              dsimp only at h
              simp only [Option.some.injEq] at h
              exact Or.inl h.symm
          | completed rc2 out2 err2 t2 =>
              rw [ho2] at h
              dsimp only at h
              by_cases hr : rc2 ≠ 0
              · rw [if_pos hr] at h
                simp only [Option.some.injEq] at h
                exact Or.inr (Or.inr ⟨rc2, out2, err2, t2, rfl, h.symm⟩)
              · rw [if_neg hr] at h
                exact absurd h (by simp)

/-- C10 witness: at concrete inputs — python code containing "import os" spawns
nothing, while the C++/JavaScript strategies spawn even for that source, and a
timed-out run's error is the fixed timeout message. -/
theorem prefilter_only_for_python_witness :
    (Problems.execute_python "import os" "" (fun _ => ProcOutcome.timedOut) 0).2
        = 0 ∧
    0 + 1 ≤ (Problems.execute_cpp "import os" "" (fun _ => ProcOutcome.timedOut)
        0).2 ∧
    (Problems.execute_javascript "import os" "" (fun _ => ProcOutcome.timedOut)
        0).2 = 0 + 1 ∧
    ("Time Limit Exceeded" = "Time Limit Exceeded" ∨
      ∃ rc out err t, (fun _ => ProcOutcome.timedOut) 0
          = ProcOutcome.completed rc out err t ∧
        "Time Limit Exceeded" = PyStr.strTake err 1000) ∧
    ("Time Limit Exceeded" = "Time Limit Exceeded" ∨
      (∃ rc out cerr t, (fun _ => ProcOutcome.timedOut) 0
          = ProcOutcome.completed rc out cerr t ∧
        "Time Limit Exceeded" = "Compilation Error:\n" ++ PyStr.strTake cerr 1000) ∨
      (∃ rc out err t, (fun _ => ProcOutcome.timedOut) (0 + 1)
          = ProcOutcome.completed rc out err t ∧
        "Time Limit Exceeded" = PyStr.strOr (PyStr.strTake err 1000) "Runtime Error")) := by
  refine ⟨?_, ?_, ?_, ?_, ?_⟩
  · exact (prefilter_only_for_python.1 "import os" "" (fun _ => ProcOutcome.timedOut)
      0).mpr rfl
  · exact prefilter_only_for_python.2.1 "import os" "" (fun _ => ProcOutcome.timedOut) 0
  · exact prefilter_only_for_python.2.2.1 "import os" ""
      (fun _ => ProcOutcome.timedOut) 0
  · exact prefilter_only_for_python.2.2.2.1 "print(1)" ""
      (fun _ => ProcOutcome.timedOut) 0 "Time Limit Exceeded" rfl
  · exact prefilter_only_for_python.2.2.2.2 "print(1)" ""
      (fun _ => ProcOutcome.timedOut) 0 "Time Limit Exceeded" rfl

namespace Problems

theorem execute_python_forbidden (code stdin : String) (os : Nat → ProcOutcome)
    (k : Nat) (h : PyStr.strContains (PyStr.lower code) "import os" = true) :
    execute_python code stdin os k =
      ({ output := "", error := some "Forbidden: import os",
         executionTimeMs := 0, status := "error" }, k) := by
  unfold execute_python forbidden
  rw [List.find?_cons_of_pos _ h]
  rfl

theorem runLoop_forbidden (code : String) (os : Nat → ProcOutcome)
    (h : PyStr.strContains (PyStr.lower code) "import os" = true) :
    ∀ (tcs : List TC) (i k : Nat),
      runLoop code "python" os tcs i k =
        (rejEntries "Forbidden: import os" tcs i, 0, tcs.isEmpty, k) := by
  intro tcs
  induction tcs with
  | nil => intro i k; rfl
  | cons tc rest ih =>
      intro i k
      rw [runLoop,
        show execute code "python" tc.input os k
          = execute_python code tc.input os k from rfl,
        execute_python_forbidden code tc.input os k h]
      dsimp only
      by_cases hi : 2 ≤ i
      · simp [hi, rejEntries]
      · simp [hi, rejEntries, ih]

theorem rejEntries_errors (msg : String) : ∀ (tcs : List TC) (i : Nat),
    ∀ tr ∈ rejEntries msg tcs i,
      tr.error = some msg ∨ tr.error = some "Skipped due to previous failure" := by
  intro tcs
  induction tcs with
  | nil => intro i tr htr; cases htr
  | cons tc rest ih =>
      intro i tr htr
      rcases List.mem_cons.mp htr with hh | ht
      · subst hh; exact Or.inl rfl
      · by_cases hi : 2 ≤ i
        · rw [if_pos hi] at ht
          exact Or.inr (skipEntries_forall rest (i + 2) tr ht).2.2
        · rw [if_neg hi] at ht
          exact ih (i + 1) tr ht

end Problems

namespace Practice

theorem practice_reject_forbidden (code inputData : String)
    (os : Nat → ProcOutcome) (k : Nat)
    (h : PyStr.strContains (PyStr.lower code) "import os" = true) :
    execute_python code inputData os k =
      ({ output := "", executionTimeMs := 0, memoryKb := 0,
         error := some "Forbidden operation detected: import os",
         status := "error" }, k) := by
  unfold execute_python forbidden_keywords
  rw [List.find?_cons_of_pos _ h]
  rfl

theorem runTests_forbidden (code : String) (os : Nat → ProcOutcome)
    (h : PyStr.strContains (PyStr.lower code) "import os" = true) :
    ∀ (tcs : List PTC) (i k : Nat),
      (runTests code os tcs i k).2 = k ∧
      (runTests code os tcs i k).1.map verdictView
        = List.replicate tcs.length ⟨false, none, "error"⟩ := by
  intro tcs
  induction tcs with
  | nil => intro i k; exact ⟨rfl, rfl⟩
  | cons tc rest ih =>
      intro i k
      rw [runTests, practice_reject_forbidden code tc.inputData os k h]
      dsimp only
      refine ⟨(ih (i + 1) k).1, ?_⟩
      rw [List.length_cons, List.replicate_succ, List.map_cons,
        (ih (i + 1) k).2]
      rfl

theorem evaluate_verdict_all_rejected (n : Nat) :
    (evaluate_verdict
        (List.replicate (n + 1) ⟨false, none, "error"⟩)).1 = "WA" := by
  have hre : (List.replicate (n + 1) (⟨false, none, "error"⟩ : VerdictInput)).any
      (fun r => PyStr.truthy r.error && PyStr.strContains r.status "error")
        = false := by
    rw [List.any_eq_false]
    intro x hx
    rw [List.eq_of_mem_replicate hx]
    decide
  have hto : (List.replicate (n + 1) (⟨false, none, "error"⟩ : VerdictInput)).any
      (fun r => r.status == "timeout") = false := by
    rw [List.any_eq_false]
    intro x hx
    rw [List.eq_of_mem_replicate hx]
    decide
  unfold evaluate_verdict
  rw [if_neg (by simp [List.replicate_succ])]
  rw [if_neg (by simp [hre])]
  rw [if_neg (by simp [hto])]
  rw [if_neg (by simp [List.filter_replicate])]
  rw [List.replicate_succ]
  rfl

end Practice

/-- C5 (amended): a python submission whose source contains "import os" is
rejected by the pre-filter before any execution — no child process is spawned,
the error message names the forbidden token, and the reported execution time
is 0 — in both the problems executor and the practice executor.  However the
submission's verdict is WA (Wrong Answer), not RE: in `submit_solution` the
rejection message matches none of the "Time Limit"/"Compilation"/"Runtime"
substring checks, and in the practice flow `evaluate_verdict` reads the absent
"error" dict key, so its RuntimeError rule never fires on `submit_code`'s
entries. -/
theorem security_prefilter_rejection :
    (∀ (code stdin : String) (os : Nat → ProcOutcome) (k : Nat),
        PyStr.strContains (PyStr.lower code) "import os" = true →
          Problems.execute_python code stdin os k =
            ({ output := "", error := some "Forbidden: import os",
               executionTimeMs := 0, status := "error" }, k)) ∧
    (∀ (code inputData : String) (os : Nat → ProcOutcome) (k : Nat),
        PyStr.strContains (PyStr.lower code) "import os" = true →
          Practice.execute_python code inputData os k =
            ({ output := "", executionTimeMs := 0, memoryKb := 0,
               error := some "Forbidden operation detected: import os",
               status := "error" }, k)) ∧
    (∀ (code : String) (tcs : List Problems.TC) (os : Nat → ProcOutcome),
        PyStr.strContains (PyStr.lower code) "import os" = true → tcs ≠ [] →
          (Problems.submit_solution code "python" tcs os).1.verdict = "WA" ∧
          (Problems.submit_solution code "python" tcs os).2 = 0) ∧
    (∀ (code : String) (tcs : List Practice.PTC) (os : Nat → ProcOutcome),
        PyStr.strContains (PyStr.lower code) "import os" = true → tcs ≠ [] →
          (Practice.submit_code code tcs os).1.1 = "WA" ∧
          (Practice.submit_code code tcs os).2.2 = 0) := by
  refine ⟨Problems.execute_python_forbidden, Practice.practice_reject_forbidden,
    fun code tcs os h hne => ?_, fun code tcs os h hne => ?_⟩
  · have hrun := Problems.runLoop_forbidden code os h tcs 0 0
    have hanyf : ∀ pat : String,
        PyStr.optHasSub (some "Forbidden: import os") pat = false →
        PyStr.optHasSub (some "Skipped due to previous failure") pat = false →
        (Problems.rejEntries "Forbidden: import os" tcs 0).any
          (fun tr => PyStr.optHasSub tr.error pat) = false := by
      intro pat h1 h2
      rw [List.any_eq_false]
      intro tr htr
      rcases Problems.rejEntries_errors "Forbidden: import os" tcs 0 tr htr with
        he | he <;> simp [he, h1, h2]
    have hne' : tcs.isEmpty = false := by
      cases tcs with
      | nil => exact absurd rfl hne
      | cons a l => rfl
    constructor
    · show (Problems.computeVerdict
          (Problems.runLoop code "python" os tcs 0 0).2.2.1
          (Problems.runLoop code "python" os tcs 0 0).1 tcs.length).1 = "WA"
      rw [hrun]
      dsimp only
      rw [hne']
      unfold Problems.computeVerdict
      rw [if_neg (by simp)]
      rw [if_neg (by simp [hanyf "Time Limit" (by decide) (by decide)])]
      rw [if_neg (by simp [hanyf "Compilation" (by decide) (by decide)])]
      rw [if_neg (by simp [hanyf "Runtime" (by decide) (by decide)])]
      split <;> rfl
    · show (Problems.runLoop code "python" os tcs 0 0).2.2.2 = 0
      rw [hrun]
  · have hrt := Practice.runTests_forbidden code os h tcs 0 0
    constructor
    · show (Practice.evaluate_verdict
          ((Practice.runTests code os tcs 0 0).1.map Practice.verdictView)).1
            = "WA"
      rw [hrt.2]
      cases tcs with
      | nil => exact absurd rfl hne
      | cons a l =>
          rw [List.length_cons]
          exact Practice.evaluate_verdict_all_rejected l.length
    · exact hrt.1

/-- C5 counterexample: code "import os" is rejected before execution (zero
child processes), but the final verdict is WA in both submission flows, not
the RuntimeError/rejected verdict the claim states. -/
theorem forbidden_code_wrong_answer_counterexample :
    (Problems.submit_solution "import os" "python" Examples.threeOnes
        Examples.osMix).1.verdict = "WA" ∧
    (Problems.submit_solution "import os" "python" Examples.threeOnes
        Examples.osMix).1.verdict ≠ "RE" ∧
    (Problems.submit_solution "import os" "python" Examples.threeOnes
        Examples.osMix).2 = 0 ∧
    (Practice.submit_code "import os" [⟨"a", "1"⟩] Examples.osMix).1.1 = "WA" ∧
    (Practice.submit_code "import os" [⟨"a", "1"⟩] Examples.osMix).1.1 ≠ "RE" :=
  ⟨rfl, by decide, rfl, rfl, by decide⟩

/-- C5 witness: the rejection facts at the concrete source "import os". -/
theorem security_prefilter_rejection_witness :
    Problems.execute_python "import os" "" Examples.osMix 0 =
      ({ output := "", error := some "Forbidden: import os",
         executionTimeMs := 0, status := "error" }, 0) ∧
    Practice.execute_python "import os" "" Examples.osMix 0 =
      ({ output := "", executionTimeMs := 0, memoryKb := 0,
         error := some "Forbidden operation detected: import os",
         status := "error" }, 0) ∧
    (Problems.submit_solution "import os" "python" Examples.threeOnes
        Examples.osMix).1.verdict = "WA" ∧
    (Practice.submit_code "import os" [⟨"a", "1"⟩] Examples.osMix).1.1 = "WA" := by
  refine ⟨security_prefilter_rejection.1 "import os" "" Examples.osMix 0 rfl,
    security_prefilter_rejection.2.1 "import os" "" Examples.osMix 0 rfl,
    (security_prefilter_rejection.2.2.1 "import os" Examples.threeOnes
      Examples.osMix rfl (by decide)).1,
    (security_prefilter_rejection.2.2.2 "import os" [⟨"a", "1"⟩]
      Examples.osMix rfl (by decide)).1⟩

namespace Problems

theorem runLoop_no_stop (code : String) (os : Nat → ProcOutcome)
    (hc : hasForbidden code = false) :
    ∀ (tcs : List TC) (i k : Nat),
      (∀ m, m < tcs.length → 2 ≤ i + m →
          passes (tcs.getD m default) (os (k + m)) = true) →
      runLoop code "python" os tcs i k =
        (pyEntries os tcs i k, pyTime os tcs k, pyAll os tcs k,
         k + tcs.length) := by
  intro tcs
  induction tcs with
  | nil => intro i k _; simp [runLoop, pyEntries, pyTime, pyAll]
  | cons tc rest ih =>
      intro i k hall
      simp only [runLoop]
      rw [execute_python_eq code tc.input os k hc]
      dsimp only
      have hcond : ¬((!((pyResult (os k)).status == "success" &&
            PyStr.strip (pyResult (os k)).output == PyStr.strip tc.output) &&
            decide (2 ≤ i)) = true) := by
        by_cases hi : 2 ≤ i
        · have hp : passes tc (os k) = true := by
            have := hall 0 (by simp) (by simpa using hi)
            simpa using this
          unfold passes at hp
          simp [hp]
        · simp [hi]
      rw [if_neg hcond]
      have hall' : ∀ m, m < rest.length → 2 ≤ (i + 1) + m →
          passes (rest.getD m default) (os ((k + 1) + m)) = true := by
        intro m hm h2
        have hh := hall (m + 1) (by simpa using Nat.succ_lt_succ hm) (by omega)
        rw [List.getD_cons_succ] at hh
        rw [show k + (m + 1) = k + 1 + m from by omega] at hh
        exact hh
      rw [ih (i + 1) (k + 1) hall']
      show (mkEntry tc (os k) i :: pyEntries os rest (i + 1) (k + 1),
          (pyResult (os k)).executionTimeMs + pyTime os rest (k + 1),
          passes tc (os k) && pyAll os rest (k + 1),
          k + 1 + rest.length)
        = (pyEntries os (tc :: rest) i k, pyTime os (tc :: rest) k,
           pyAll os (tc :: rest) k, k + (tc :: rest).length)
      rw [show (tc :: rest).length = rest.length + 1 from rfl,
        show k + 1 + rest.length = k + (rest.length + 1) from by omega]
      rfl

theorem runLoop_stop (code : String) (os : Nat → ProcOutcome)
    (hc : hasForbidden code = false) :
    ∀ (tcs : List TC) (j i k : Nat),
      j < tcs.length →
      (∀ m, m < j → 2 ≤ i + m →
          passes (tcs.getD m default) (os (k + m)) = true) →
      2 ≤ i + j →
      passes (tcs.getD j default) (os (k + j)) = false →
      runLoop code "python" os tcs i k =
        (pyEntries os (tcs.take (j + 1)) i k
            ++ skipEntries (tcs.drop (j + 1)) (i + j + 2),
         pyTime os (tcs.take (j + 1)) k, false, k + j + 1) := by
  intro tcs
  induction tcs with
  | nil => intro j i k hj; exact absurd hj (by simp)
  | cons tc rest ih =>
      intro j i k hj hprev h2 hfail
      simp only [runLoop]
      rw [execute_python_eq code tc.input os k hc]
      dsimp only
      cases j with
      | zero =>
          rw [List.getD_cons_zero, Nat.add_zero] at hfail
          rw [Nat.add_zero] at h2
          have hfail' : ((pyResult (os k)).status == "success" &&
              PyStr.strip (pyResult (os k)).output == PyStr.strip tc.output)
                = false := by
            unfold passes at hfail
            exact hfail
          rw [if_pos (by simp [hfail', h2])]
          simp only [Nat.add_zero, List.take_succ_cons, List.take_zero,
            List.drop_succ_cons, List.drop_zero, pyEntries, pyTime,
            List.cons_append, List.nil_append]
          rfl
      | succ j' =>
          have hcond : ¬((!((pyResult (os k)).status == "success" &&
                PyStr.strip (pyResult (os k)).output == PyStr.strip tc.output) &&
                decide (2 ≤ i)) = true) := by
            by_cases hi : 2 ≤ i
            · have hp : passes tc (os k) = true := by
                have := hprev 0 (Nat.succ_pos j') (by simpa using hi)
                simpa using this
              unfold passes at hp
              simp [hp]
            · simp [hi]
          rw [if_neg hcond]
          have hprev' : ∀ m, m < j' → 2 ≤ (i + 1) + m →
              passes (rest.getD m default) (os ((k + 1) + m)) = true := by
            intro m hm hm2
            have hh := hprev (m + 1) (Nat.succ_lt_succ hm) (by omega)
            rw [List.getD_cons_succ] at hh
            rw [show k + (m + 1) = k + 1 + m from by omega] at hh
            exact hh
          have hj' : j' < rest.length := by simpa using Nat.lt_of_succ_lt_succ hj
          have h2' : 2 ≤ (i + 1) + j' := by omega
          have hfail2 : passes (rest.getD j' default) (os ((k + 1) + j'))
              = false := by
            have hh := hfail
            rw [List.getD_cons_succ] at hh
            rw [show k + (j' + 1) = k + 1 + j' from by omega] at hh
            exact hh
          rw [ih j' (i + 1) (k + 1) hj' hprev' h2' hfail2]
          show (mkEntry tc (os k) i ::
              (pyEntries os (rest.take (j' + 1)) (i + 1) (k + 1)
                ++ skipEntries (rest.drop (j' + 1)) (i + 1 + j' + 2)),
              (pyResult (os k)).executionTimeMs
                + pyTime os (rest.take (j' + 1)) (k + 1),
              passes tc (os k) && false,
              k + 1 + j' + 1)
            = (pyEntries os ((tc :: rest).take (j' + 1 + 1)) i k
                ++ skipEntries ((tc :: rest).drop (j' + 1 + 1)) (i + (j' + 1) + 2),
               pyTime os ((tc :: rest).take (j' + 1 + 1)) k, false,
               k + (j' + 1) + 1)
          rw [List.take_succ_cons, List.drop_succ_cons,
            show i + 1 + j' + 2 = i + (j' + 1) + 2 from by omega,
            show k + 1 + j' + 1 = k + (j' + 1) + 1 from by omega,
            Bool.and_false]
          rfl

theorem pyAll_eq_true_iff (os : Nat → ProcOutcome) :
    ∀ (tcs : List TC) (k : Nat),
      pyAll os tcs k = true ↔
        ∀ j, j < tcs.length → passes (tcs.getD j default) (os (k + j)) = true := by
  intro tcs
  induction tcs with
  | nil => intro k; simp [pyAll]
  | cons tc rest ih =>
      intro k
      simp only [pyAll, Bool.and_eq_true, ih (k + 1)]
      constructor
      · rintro ⟨h0, hrest⟩ j hj
        cases j with
        | zero => simpa using h0
        | succ j' =>
            have hh := hrest j' (by simpa using Nat.lt_of_succ_lt_succ hj)
            rw [show k + 1 + j' = k + (j' + 1) from by omega] at hh
            simpa using hh
      · intro hall
        refine ⟨by simpa using hall 0 (by simp), fun j hj => ?_⟩
        have hh := hall (j + 1) (by simpa using Nat.succ_lt_succ hj)
        rw [show k + (j + 1) = k + 1 + j from by omega] at hh
        simpa using hh

end Problems

/-- C1 (amended): the early-stop of `submit_solution` triggers at the first
failing test whose 0-based index is at least 2 (1-based position at least 3):
when tests at indices 2..j-1 pass (failures at indices 0 and 1 never arm a
stop) and the test at index j ≥ 2 fails, exactly j + 1 tests execute; the full
result list keeps one record per test case (so all contribute to totalCount),
the untested remainder is recorded with passed=false, zero execution time and
errorMessage "Skipped due to previous failure", and the reported execution
time is the sum over executed tests only.  When no test at index ≥ 2 fails,
every test case executes — in particular a submission whose only failures are
among the first two positions is not stopped early. -/
theorem early_stop_policy_characterization :
    (∀ (code : String) (tcs : List Problems.TC) (os : Nat → ProcOutcome)
        (j : Nat),
        Problems.hasForbidden code = false →
        j < tcs.length → 2 ≤ j →
        (∀ m, m < j → 2 ≤ m →
            Problems.passes (tcs.getD m default) (os m) = true) →
        Problems.passes (tcs.getD j default) (os j) = false →
          (Problems.submit_solution code "python" tcs os).2 = j + 1 ∧
          (Problems.runLoop code "python" os tcs 0 0).1
            = Problems.pyEntries os (tcs.take (j + 1)) 0 0
                ++ Problems.skipEntries (tcs.drop (j + 1)) (j + 2) ∧
          (Problems.submit_solution code "python" tcs os).1.totalTests
            = tcs.length ∧
          (Problems.submit_solution code "python" tcs os).1.executionTimeMs
            = Problems.pyTime os (tcs.take (j + 1)) 0 ∧
          (∀ tr ∈ Problems.skipEntries (tcs.drop (j + 1)) (j + 2),
            tr.passed = false ∧ tr.executionTimeMs = 0 ∧
            tr.error = some "Skipped due to previous failure")) ∧
    (∀ (code : String) (tcs : List Problems.TC) (os : Nat → ProcOutcome),
        Problems.hasForbidden code = false →
        (∀ m, m < tcs.length → 2 ≤ m →
            Problems.passes (tcs.getD m default) (os m) = true) →
          (Problems.submit_solution code "python" tcs os).2 = tcs.length) := by
  constructor
  · intro code tcs os j hc hj h2 hprev hfail
    have hstop := Problems.runLoop_stop code os hc tcs j 0 0 hj
      (fun m hm h2m => by simpa using hprev m hm (by simpa using h2m))
      (by simpa using h2) (by simpa using hfail)
    refine ⟨?_, ?_, rfl, ?_, Problems.skipEntries_forall _ _⟩
    · show (Problems.runLoop code "python" os tcs 0 0).2.2.2 = j + 1
      rw [hstop]
      simp
    · rw [hstop]
      simp
    · show (Problems.runLoop code "python" os tcs 0 0).2.1
        = Problems.pyTime os (tcs.take (j + 1)) 0
      rw [hstop]
  · intro code tcs os hc hall
    have hns := Problems.runLoop_no_stop code os hc tcs 0 0
      (fun m hm h2 => by simpa using hall m hm (by simpa using h2))
    show (Problems.runLoop code "python" os tcs 0 0).2.2.2 = tcs.length
    rw [hns]
    simp

/-- C1 counterexample: a submission whose first test case fails while every
later case passes is never stopped: with four test cases it executes all four
(spawning 4 > max(3, 1) processes) and records no skipped entry. -/
theorem early_stop_first_failure_runs_all_counterexample :
    (Problems.submit_solution "x = input()" "python" Examples.fourOnes
        Examples.osFailFirst).2 = 4 ∧
    (Problems.submit_solution "x = input()" "python" Examples.fourOnes
        Examples.osFailFirst).1.passedTests = 3 ∧
    (Problems.submit_solution "x = input()" "python" Examples.fourOnes
        Examples.osFailFirst).1.totalTests = 4 ∧
    (Problems.runLoop "x = input()" "python" Examples.osFailFirst
        Examples.fourOnes 0 0).1.all
      (fun tr => !(tr.error == some "Skipped due to previous failure")) = true :=
  ⟨rfl, rfl, rfl, rfl⟩

/-- C1 witness: with the third test (index 2) failing and the rest passing,
exactly three tests execute out of four. -/
theorem early_stop_policy_characterization_witness :
    (Problems.submit_solution "x = input()" "python" Examples.fourOnes
        Examples.osFailThird).2 = 3 ∧
    (Problems.submit_solution "x = input()" "python" Examples.fourOnes
        Examples.osFailThird).1.totalTests = 4 ∧
    (Problems.submit_solution "x = input()" "python" Examples.threeOnes
        Examples.osAllOnes).2 = 3 := by
  have h := early_stop_policy_characterization.1 "x = input()" Examples.fourOnes
    Examples.osFailThird 2 rfl (by decide) (by decide)
    (fun m hm h2 => absurd h2 (by omega)) (by decide)
  have h2 := early_stop_policy_characterization.2 "x = input()" Examples.threeOnes
    Examples.osAllOnes rfl
    (fun m hm h2 => by
      have hm3 : m < 3 := by simpa [Examples.threeOnes] using hm
      have : m = 2 := by omega
      subst this
      decide)
  refine ⟨h.1, by rw [h.2.2.1]; rfl, by rw [h2]; rfl⟩

/-- C4 (amended): for a python submission passing the pre-filter, the verdict
is Accepted iff every test case's execution completed successfully (exit
status 0) AND its stripped stdout is exactly string-equal to the stripped
expected output.  Trimming is of leading/trailing whitespace only and the
comparison is plain string equality — no internal-whitespace normalization or
numeric tolerance — but string equality alone is not sufficient: a timed-out
or crashed run is never Accepted even when its (empty) output is trim-equal to
the expected output. -/
theorem accepted_iff_success_and_trim_equal (code : String)
    (tcs : List Problems.TC) (os : Nat → ProcOutcome)
    (hc : Problems.hasForbidden code = false) :
    (Problems.submit_solution code "python" tcs os).1.verdict = "AC" ↔
      ∀ j, j < tcs.length →
        Problems.passes (tcs.getD j default) (os j) = true := by
  have hiff : (Problems.submit_solution code "python" tcs os).1.verdict = "AC" ↔
      (Problems.runLoop code "python" os tcs 0 0).2.2.1 = true := by
    show (Problems.computeVerdict
        (Problems.runLoop code "python" os tcs 0 0).2.2.1
        (Problems.runLoop code "python" os tcs 0 0).1 tcs.length).1 = "AC" ↔ _
    exact Problems.computeVerdict_fst_eq_AC_iff _ _ _
  rw [hiff]
  constructor
  · intro hall j hj
    by_contra hnot
    have hfail : Problems.passes (tcs.getD j default) (os j) = false :=
      Bool.eq_false_iff.mpr hnot
    by_cases hstop : ∃ m, m < tcs.length ∧ 2 ≤ m ∧
        Problems.passes (tcs.getD m default) (os m) = false
    · have hspec := Nat.find_spec hstop
      have hstopEq := Problems.runLoop_stop code os hc tcs (Nat.find hstop) 0 0
        hspec.1
        (fun m hm h2m => by
          have hnP := Nat.find_min hstop hm
          cases hb : Problems.passes (tcs.getD m default) (os m) with
          | true => simpa using hb
          | false =>
              exact absurd ⟨Nat.lt_trans hm hspec.1, by simpa using h2m, hb⟩ hnP)
        (by simpa using hspec.2.1) (by simpa using hspec.2.2)
      rw [hstopEq] at hall
      simp at hall
    · have hns := Problems.runLoop_no_stop code os hc tcs 0 0
        (fun m hm h2 => by
          cases hb : Problems.passes (tcs.getD m default) (os m) with
          | true => simpa using hb
          | false => exact absurd ⟨m, hm, by simpa using h2, hb⟩ hstop)
      rw [hns] at hall
      have := (Problems.pyAll_eq_true_iff os tcs 0).mp hall j hj
      rw [show (0 : Nat) + j = j from by omega] at this
      exact absurd this hnot
  · intro hall
    have hns := Problems.runLoop_no_stop code os hc tcs 0 0
      (fun m hm _ => by simpa using hall m hm)
    rw [hns]
    exact (Problems.pyAll_eq_true_iff os tcs 0).mpr
      (fun j hj => by simpa using hall j hj)

/-- C4 counterexample: a single test case whose expected output is a single
space, judged against a timed-out run: the executed case's actual output ("")
is trim-equal to the expected output and the run is not early-stopped, yet the
verdict is TLE, not Accepted — success status is also required. -/
theorem timeout_trim_equal_not_accepted :
    (Problems.submit_solution "x = input()" "python" [⟨"x", " "⟩]
        (fun _ => ProcOutcome.timedOut)).1.verdict = "TLE" ∧
    PyStr.strip "" = PyStr.strip " " ∧
    (Problems.submit_solution "x = input()" "python" [⟨"x", " "⟩]
        (fun _ => ProcOutcome.timedOut)).1.testResults.all
      (fun tr => !(tr.error == some "Skipped due to previous failure")) = true :=
  ⟨rfl, rfl, rfl⟩

/-- C4 witness: a clean three-case run whose outputs all match exactly is
Accepted. -/
theorem accepted_iff_success_and_trim_equal_witness :
    Problems.hasForbidden "x = input()" = false ∧
    (Problems.submit_solution "x = input()" "python" Examples.threeOnes
        Examples.osAllOnes).1.verdict = "AC" := by
  refine ⟨rfl, ?_⟩
  apply (accepted_iff_success_and_trim_equal "x = input()" Examples.threeOnes
    Examples.osAllOnes rfl).mpr
  intro j hj
  have hj3 : j < 3 := by simpa [Examples.threeOnes] using hj
  have : j = 0 ∨ j = 1 ∨ j = 2 := by omega
  rcases this with rfl | rfl | rfl <;> decide
